import Mathlib

/-!
Shallow embedding of src/include/sancus_support/sancus_step.h
(sancus-support single-instruction-step harness for MSP430).

The header defines three calibration constants, four globals, and two
macros: SANCUS_STEP_INIT (timer initialization) and SANCUS_STEP_ISR(fct)
(the timer-A interrupt service routine, written in inline assembly).
We embed the machine state touched by this code as a record and each
macro as a function from state to state paired with a list of events,
one event per effectful instruction of the assembly, in program order.
The hardware side of reti (restoring pc/sr of the interrupted context)
is outside the code under analysis; reti is recorded as the final event.
-/

namespace SancusStep

/-- HW_IRQ_LATENCY from the header: fixed hardware interrupt-entry latency. -/
def HW_IRQ_LATENCY : Nat := 34

/-- ISR_STACK_SIZE from the header: words reserved for the interrupt stack. -/
def ISR_STACK_SIZE : Nat := 512

/-- INIT_LATENCY from the header: calibrated startup latency programmed by init. -/
def INIT_LATENCY : Nat := 42

/-- Resume latency hardcoded in the ISR assembly: mov #0x41, &TACCR0
(comment in source: 0x41 is latency of resume). -/
def RESUME_LATENCY : Nat := 0x41

/-- Timer-A control value enabling the timer, hardcoded in the ISR assembly:
mov #0x212, &TACTL (comment in source: 0x212 is TACTL_ENABLE).
Bits: TASSEL = 2 (clock-source field), MC = 1 (up mode), TAIE (interrupt enable). -/
def TACTL_ENABLE : Nat := 0x212

/-- Modelled from the spec: TACTL_DISABLE is defined in timer.h, which is not
among the provided sources. The spec says initialize() first stops the timer,
and the ISR disables the timer by writing 0 to TACTL, so the stopped control
value is taken to be 0 (all mode-control bits clear). -/
def TACTL_DISABLE : Nat := 0

/-- One effectful instruction of SANCUS_STEP_INIT or SANCUS_STEP_ISR,
in the order the assembly executes them. -/
inductive SSEvent where
  /-- dint: globally disable interrupts. -/
  | dint : SSEvent
  /-- mov &TAR, &__ss_isr_tar_entry with the value moved. -/
  | storeTarEntry : Nat → SSEvent
  /-- cmp #0x0, r1: the one read of the register deciding the branch,
  with the value read. -/
  | readR1 : Nat → SSEvent
  /-- mov &__ss_isr_sp, r1: switch the stack pointer to the interrupt stack,
  with the value loaded. -/
  | loadIsrSp : Nat → SSEvent
  /-- push: write a word to the stack, with target address and value. -/
  | push : Nat → Nat → SSEvent
  /-- call #fct: invoke the step callback, with the stack pointer at the call. -/
  | call : Nat → SSEvent
  /-- mov to &TACCR0: program the compare threshold, with the value written. -/
  | writeTACCR0 : Nat → SSEvent
  /-- mov to &TACTL: program the timer control register, with the value written. -/
  | writeTACTL : Nat → SSEvent
  /-- reti: hardware interrupt return resuming the interrupted context. -/
  | reti : SSEvent
  deriving DecidableEq

/-- The machine state read or written by the two macros: the registers the
assembly names (r1 is the MSP430 stack pointer, r15 the one register saved
for the calling convention), the three timer-A registers, the global
interrupt-enable flag, the two globals of the header the macros touch, and
word-addressed memory for the pushes. -/
structure MachineState where
  r1 : Nat
  r15 : Nat
  TAR : Nat
  TACCR0 : Nat
  TACTL : Nat
  gie : Bool
  __ss_isr_tar_entry : Nat
  __ss_isr_sp : Nat
  mem : Nat → Nat

/-- Two-byte decrement of a 16-bit stack pointer, with wraparound. -/
def wordSub2 (a : Nat) : Nat := (65534 + a) % 65536

/-- MSP430 push: predecrement r1 by 2, store the 16-bit word there. -/
def pushWord (s : MachineState) (v : Nat) : MachineState :=
  { s with r1 := wordSub2 s.r1,
           mem := fun a => if a = wordSub2 s.r1 then v % 65536 else s.mem a }

/-- SANCUS_STEP_ISR(fct), one instruction per line of the inline assembly:
store TAR into __ss_isr_tar_entry; compare r1 with 0 and branch; if r1 = 0
(sm got interrupted) load r1 from __ss_isr_sp, push r15, push #0x0, call fct,
write RESUME_LATENCY to TACCR0 and TACTL_ENABLE to TACTL; otherwise
(no sm interrupted) write 0 to TACTL; both branches end in reti.
The callback fct is external code, taken as an arbitrary state transformer
(its net effect over the balanced call/ret). The returned state is the state
at the reti instruction; the hardware context restore of reti is external. -/
def sancus_step_isr (fct : MachineState → MachineState) (s0 : MachineState) :
    MachineState × List SSEvent :=
  let s1 : MachineState := { s0 with __ss_isr_tar_entry := s0.TAR }
  if s1.r1 = 0 then
    let s2 : MachineState := { s1 with r1 := s1.__ss_isr_sp }
    let s3 : MachineState := pushWord s2 s2.r15
    let s4 : MachineState := pushWord s3 0
    let s5 : MachineState := fct s4
    let s6 : MachineState := { s5 with TACCR0 := RESUME_LATENCY }
    let s7 : MachineState := { s6 with TACTL := TACTL_ENABLE }
    (s7, [SSEvent.storeTarEntry s0.TAR, SSEvent.readR1 s1.r1,
          SSEvent.loadIsrSp s1.__ss_isr_sp,
          SSEvent.push s3.r1 s2.r15, SSEvent.push s4.r1 0,
          SSEvent.call s4.r1,
          SSEvent.writeTACCR0 RESUME_LATENCY, SSEvent.writeTACTL TACTL_ENABLE,
          SSEvent.reti])
  else
    ({ s1 with TACTL := 0 },
     [SSEvent.storeTarEntry s0.TAR, SSEvent.readR1 s1.r1,
      SSEvent.writeTACTL 0, SSEvent.reti])

/-- SANCUS_STEP_INIT, statement by statement: dint; TACTL = TACTL_DISABLE;
TACCR0 = INIT_LATENCY; TACTL = TACTL_ENABLE. -/
def sancus_step_init (s : MachineState) : MachineState × List SSEvent :=
  let s1 : MachineState := { s with gie := false }
  let s2 : MachineState := { s1 with TACTL := TACTL_DISABLE }
  let s3 : MachineState := { s2 with TACCR0 := INIT_LATENCY }
  let s4 : MachineState := { s3 with TACTL := TACTL_ENABLE }
  (s4, [SSEvent.dint, SSEvent.writeTACTL TACTL_DISABLE,
        SSEvent.writeTACCR0 INIT_LATENCY, SSEvent.writeTACTL TACTL_ENABLE])

/-- Iterated handler invocations: n successive timer interrupts, traces
concatenated in order. -/
def sancus_step_isr_iter (fct : MachineState → MachineState) :
    Nat → MachineState → MachineState × List SSEvent
  | 0, s => (s, [])
  | n + 1, s =>
    let r1 := sancus_step_isr fct s
    let r2 := sancus_step_isr_iter fct n r1.1
    (r2.1, r1.2 ++ r2.2)

/-- True on the events that invoke the step callback. -/
def isCall : SSEvent → Bool
  | SSEvent.call _ => true
  | _ => false

/-- True on the event that reads the branch-deciding register. -/
def isReadR1 : SSEvent → Bool
  | SSEvent.readR1 _ => true
  | _ => false

/-- True on writes to the compare-threshold register TACCR0. -/
def isWriteTACCR0 : SSEvent → Bool
  | SSEvent.writeTACCR0 _ => true
  | _ => false

/-- True on writes to the timer control register TACTL. -/
def isWriteTACTL : SSEvent → Bool
  | SSEvent.writeTACTL _ => true
  | _ => false

/-- The push events of a trace, as pairs of target address and value,
in order. -/
def pushTargets : List SSEvent → List (Nat × Nat)
  | [] => []
  | SSEvent.push a v :: es => (a, v) :: pushTargets es
  | _ :: es => pushTargets es

/-- Restatement of the action list of claim C1: the five actions the claim
says are exactly the actions of a module-active invocation, plus the return.
Stack switch, register save or linkage push, callback call, timer rearm
(threshold write and control write), and the return. Used only to state that
the handler performs an action outside this list. -/
def listedC1Action : SSEvent → Bool
  | SSEvent.loadIsrSp _ => true
  | SSEvent.push _ _ => true
  | SSEvent.call _ => true
  | SSEvent.writeTACCR0 _ => true
  | SSEvent.writeTACTL _ => true
  | SSEvent.reti => true
  | _ => false

/-- A concrete module-active entry state (r1 = 0, the sancus convention for
an interrupted module): TAR reads 99 while the previously recorded
__ss_isr_tar_entry is 7. -/
def cexActive : MachineState :=
  { r1 := 0, r15 := 11, TAR := 99, TACCR0 := 5, TACTL := 0x212, gie := true,
    __ss_isr_tar_entry := 7, __ss_isr_sp := 3000, mem := fun _ => 0 }

/-- A concrete module-inactive entry state (r1 = 5, nonzero): TAR reads 99
while the previously recorded __ss_isr_tar_entry is 7. -/
def cexInactive : MachineState :=
  { r1 := 5, r15 := 11, TAR := 99, TACCR0 := 5, TACTL := 0x212, gie := true,
    __ss_isr_tar_entry := 7, __ss_isr_sp := 3000, mem := fun _ => 0 }

/-- A concrete module-active entry state used by witnesses. -/
def wActive : MachineState :=
  { r1 := 0, r15 := 21, TAR := 300, TACCR0 := 65, TACTL := 0x212, gie := true,
    __ss_isr_tar_entry := 8, __ss_isr_sp := 4000, mem := fun _ => 0 }

/-- A concrete module-inactive entry state used by witnesses. -/
def wInactive : MachineState :=
  { r1 := 4000, r15 := 21, TAR := 300, TACCR0 := 65, TACTL := 0x212, gie := true,
    __ss_isr_tar_entry := 8, __ss_isr_sp := 4000, mem := fun _ => 0 }

theorem isr_inactive_eq (fct : MachineState → MachineState) (s : MachineState)
    (h : s.r1 ≠ 0) :
    sancus_step_isr fct s =
      ({ s with __ss_isr_tar_entry := s.TAR, TACTL := 0 },
       [SSEvent.storeTarEntry s.TAR, SSEvent.readR1 s.r1,
        SSEvent.writeTACTL 0, SSEvent.reti]) := by
  simp [sancus_step_isr, h]

theorem isr_active_trace (fct : MachineState → MachineState) (s : MachineState)
    (h : s.r1 = 0) :
    (sancus_step_isr fct s).2 =
      [SSEvent.storeTarEntry s.TAR, SSEvent.readR1 0,
       SSEvent.loadIsrSp s.__ss_isr_sp,
       SSEvent.push (wordSub2 s.__ss_isr_sp) s.r15,
       SSEvent.push (wordSub2 (wordSub2 s.__ss_isr_sp)) 0,
       SSEvent.call (wordSub2 (wordSub2 s.__ss_isr_sp)),
       SSEvent.writeTACCR0 RESUME_LATENCY, SSEvent.writeTACTL TACTL_ENABLE,
       SSEvent.reti] := by
  simp [sancus_step_isr, h, pushWord]

theorem isr_active_state (fct : MachineState → MachineState) (s : MachineState)
    (h : s.r1 = 0) :
    (sancus_step_isr fct s).1 =
      { fct (pushWord (pushWord
          { s with __ss_isr_tar_entry := s.TAR, r1 := s.__ss_isr_sp } s.r15) 0)
        with TACCR0 := RESUME_LATENCY, TACTL := TACTL_ENABLE } := by
  simp [sancus_step_isr, h]

theorem isr_iter_succ (fct : MachineState → MachineState) (n : Nat)
    (s : MachineState) :
    sancus_step_isr_iter fct (n + 1) s =
      ((sancus_step_isr_iter fct n (sancus_step_isr fct s).1).1,
       (sancus_step_isr fct s).2 ++
         (sancus_step_isr_iter fct n (sancus_step_isr fct s).1).2) := by
  simp [sancus_step_isr_iter]

theorem pushWord_isr_sp (s : MachineState) (v : Nat) :
    (pushWord s v).__ss_isr_sp = s.__ss_isr_sp := rfl

/-- Claim C8: on every invocation of the step interrupt handler, on either
path, the first action stores the current timer counter TAR into the global
__ss_isr_tar_entry, before the context test (the read of r1) and before any
other effect. -/
theorem C8_tar_entry_stored_first (fct : MachineState → MachineState)
    (s : MachineState) :
    ∃ rest, (sancus_step_isr fct s).2 =
      SSEvent.storeTarEntry s.TAR :: SSEvent.readR1 s.r1 :: rest := by
  by_cases h : s.r1 = 0
  · exact ⟨_, by rw [isr_active_trace fct s h, h]⟩
  · exact ⟨_, by rw [isr_inactive_eq fct s h]⟩

/-- Claim C2: every invocation of the handler reads the branch-deciding
machine word (register r1) exactly once, and the stepping path is taken
exactly when the value read is zero: zero means the protected module was the
executing context, nonzero means it was not. -/
theorem C2_single_read_decides (fct : MachineState → MachineState)
    (s : MachineState) :
    (sancus_step_isr fct s).2.countP isReadR1 = 1
    ∧ ((sancus_step_isr fct s).2.any isCall = true ↔ s.r1 = 0) := by
  by_cases h : s.r1 = 0
  · rw [isr_active_trace fct s h]
    exact ⟨rfl, ⟨fun _ => h, fun _ => rfl⟩⟩
  · have ht : (sancus_step_isr fct s).2 =
        [SSEvent.storeTarEntry s.TAR, SSEvent.readR1 s.r1,
         SSEvent.writeTACTL 0, SSEvent.reti] := by
      rw [isr_inactive_eq fct s h]
    rw [ht]
    exact ⟨rfl, by simp [isCall, h]⟩

/-- Claim C4: on both paths of every handler invocation, the trace is some
prefix followed by a single reti (one common hardware interrupt return, never
repeated earlier), and the last effectful event of that prefix is the write
to the timer control register that rearms or disables the timer. -/
theorem C4_timer_write_last_common_reti (fct : MachineState → MachineState)
    (s : MachineState) :
    ∃ pre v, (sancus_step_isr fct s).2 = pre ++ [SSEvent.reti]
      ∧ SSEvent.reti ∉ pre
      ∧ pre.getLast? = some (SSEvent.writeTACTL v) := by
  by_cases h : s.r1 = 0
  · rw [isr_active_trace fct s h]
    exact ⟨[SSEvent.storeTarEntry s.TAR, SSEvent.readR1 0,
            SSEvent.loadIsrSp s.__ss_isr_sp,
            SSEvent.push (wordSub2 s.__ss_isr_sp) s.r15,
            SSEvent.push (wordSub2 (wordSub2 s.__ss_isr_sp)) 0,
            SSEvent.call (wordSub2 (wordSub2 s.__ss_isr_sp)),
            SSEvent.writeTACCR0 RESUME_LATENCY,
            SSEvent.writeTACTL TACTL_ENABLE],
           TACTL_ENABLE, rfl, by simp, rfl⟩
  · rw [isr_inactive_eq fct s h]
    exact ⟨[SSEvent.storeTarEntry s.TAR, SSEvent.readR1 s.r1,
            SSEvent.writeTACTL 0], 0, rfl, by simp, rfl⟩

/-- Claim C1 (counterexample): at the concrete module-active entry state
cexActive, the first action of the handler is the store of TAR (99) into
__ss_isr_tar_entry, an action outside the five actions enumerated by the
claim, and it changes state (from 7 to 99); so the handler does not perform
exactly the five enumerated actions. -/
theorem C1_counterexample_extra_first_action :
    cexActive.r1 = 0
    ∧ (sancus_step_isr id cexActive).2.head? =
        some (SSEvent.storeTarEntry 99)
    ∧ listedC1Action (SSEvent.storeTarEntry 99) = false
    ∧ (sancus_step_isr id cexActive).1.__ss_isr_tar_entry = 99
    ∧ cexActive.__ss_isr_tar_entry = 7 := by decide

/-- Claim C1 (amended): for every module-active invocation (r1 = 0), the
handler first records the timer counter into __ss_isr_tar_entry and tests the
entry-point signal, and then performs exactly these actions in this order:
switch the stack pointer to the interrupt stack, push the saved register r15,
push the placeholder linkage word 0, invoke the step callback exactly once,
rearm the timer with the calibrated resume latency (threshold then control
register), and return via reti. -/
theorem C1_active_path_actions (fct : MachineState → MachineState)
    (s : MachineState) (h : s.r1 = 0) :
    (sancus_step_isr fct s).2 =
      [SSEvent.storeTarEntry s.TAR, SSEvent.readR1 0,
       SSEvent.loadIsrSp s.__ss_isr_sp,
       SSEvent.push (wordSub2 s.__ss_isr_sp) s.r15,
       SSEvent.push (wordSub2 (wordSub2 s.__ss_isr_sp)) 0,
       SSEvent.call (wordSub2 (wordSub2 s.__ss_isr_sp)),
       SSEvent.writeTACCR0 RESUME_LATENCY, SSEvent.writeTACTL TACTL_ENABLE,
       SSEvent.reti] :=
  isr_active_trace fct s h

/-- Witness for C1: the amended action sequence evaluated at the concrete
module-active state wActive. -/
theorem C1_active_path_actions_witness :
    wActive.r1 = 0
    ∧ (sancus_step_isr id wActive).2 =
      [SSEvent.storeTarEntry 300, SSEvent.readR1 0, SSEvent.loadIsrSp 4000,
       SSEvent.push 3998 21, SSEvent.push 3996 0, SSEvent.call 3996,
       SSEvent.writeTACCR0 65, SSEvent.writeTACTL 530, SSEvent.reti] :=
  ⟨rfl, C1_active_path_actions id wActive rfl⟩

/-- Claim C3 (counterexample): at the concrete module-inactive entry state
cexInactive (r1 = 5), the handler modifies the global __ss_isr_tar_entry
(from 7 to 99), so state other than the timer enable state is modified before
the return. -/
theorem C3_counterexample_tar_entry_modified :
    cexInactive.r1 ≠ 0
    ∧ (sancus_step_isr id cexInactive).1.__ss_isr_tar_entry = 99
    ∧ cexInactive.__ss_isr_tar_entry = 7 := by decide

/-- Claim C3 (amended): for every module-inactive invocation (r1 nonzero),
the handler records the timer counter into __ss_isr_tar_entry and disables
the timer, and nothing else: the resulting state differs from the entry state
only in __ss_isr_tar_entry and TACTL (set to 0), the step callback is not
invoked, and no stack switch or push occurs. -/
theorem C3_inactive_path_frame (fct : MachineState → MachineState)
    (s : MachineState) (h : s.r1 ≠ 0) :
    (sancus_step_isr fct s).1 =
      { s with __ss_isr_tar_entry := s.TAR, TACTL := 0 }
    ∧ (sancus_step_isr fct s).2 =
      [SSEvent.storeTarEntry s.TAR, SSEvent.readR1 s.r1,
       SSEvent.writeTACTL 0, SSEvent.reti] := by
  rw [isr_inactive_eq fct s h]
  exact ⟨rfl, rfl⟩

/-- Witness for C3: the amended frame condition evaluated at the concrete
module-inactive state wInactive. -/
theorem C3_inactive_path_frame_witness :
    wInactive.r1 ≠ 0
    ∧ ((sancus_step_isr id wInactive).1 =
        { wInactive with __ss_isr_tar_entry := wInactive.TAR, TACTL := 0 }
      ∧ (sancus_step_isr id wInactive).2 =
        [SSEvent.storeTarEntry wInactive.TAR, SSEvent.readR1 wInactive.r1,
         SSEvent.writeTACTL 0, SSEvent.reti]) :=
  ⟨by decide, C3_inactive_path_frame id wInactive (by decide)⟩

/-- Claim C10: on the module-inactive path, disabling the timer writes only
the control register TACTL (set to 0); the compare threshold TACCR0 is left
unchanged, the trace contains no TACCR0 write and exactly one TACTL write. -/
theorem C10_disable_preserves_threshold (fct : MachineState → MachineState)
    (s : MachineState) (h : s.r1 ≠ 0) :
    (sancus_step_isr fct s).1.TACCR0 = s.TACCR0
    ∧ (sancus_step_isr fct s).1.TACTL = 0
    ∧ (sancus_step_isr fct s).2.countP isWriteTACCR0 = 0
    ∧ (sancus_step_isr fct s).2.countP isWriteTACTL = 1 := by
  rw [isr_inactive_eq fct s h]
  exact ⟨rfl, rfl, rfl, rfl⟩

/-- Witness for C10: evaluated at the concrete module-inactive state
wInactive. -/
theorem C10_disable_preserves_threshold_witness :
    wInactive.r1 ≠ 0
    ∧ ((sancus_step_isr id wInactive).1.TACCR0 = wInactive.TACCR0
      ∧ (sancus_step_isr id wInactive).1.TACTL = 0
      ∧ (sancus_step_isr id wInactive).2.countP isWriteTACCR0 = 0
      ∧ (sancus_step_isr id wInactive).2.countP isWriteTACTL = 1) :=
  ⟨by decide, C10_disable_preserves_threshold id wInactive (by decide)⟩

/-- Claim C7: when the handler rearms for a further step (module-active
path), it sets the compare threshold to the fixed resume latency and writes
the enable value to the control register, independently of the machine state
and of the callback; and the three timing constants are fixed configuration
values: resume latency 0x41 = 65, INIT_LATENCY 42, HW_IRQ_LATENCY 34. -/
theorem C7_rearm_fixed_constants (fct : MachineState → MachineState)
    (s : MachineState) (h : s.r1 = 0) :
    (sancus_step_isr fct s).1.TACCR0 = RESUME_LATENCY
    ∧ (sancus_step_isr fct s).1.TACTL = TACTL_ENABLE
    ∧ RESUME_LATENCY = 65 ∧ INIT_LATENCY = 42 ∧ HW_IRQ_LATENCY = 34 := by
  rw [isr_active_state fct s h]
  exact ⟨rfl, rfl, rfl, rfl, rfl⟩

/-- Witness for C7: evaluated at the concrete module-active state wActive. -/
theorem C7_rearm_fixed_constants_witness :
    wActive.r1 = 0
    ∧ ((sancus_step_isr id wActive).1.TACCR0 = RESUME_LATENCY
      ∧ (sancus_step_isr id wActive).1.TACTL = TACTL_ENABLE
      ∧ RESUME_LATENCY = 65 ∧ INIT_LATENCY = 42 ∧ HW_IRQ_LATENCY = 34) :=
  ⟨rfl, C7_rearm_fixed_constants id wActive rfl⟩

/-- Claim C6: initialization performs, in order: disable interrupts globally
(dint), stop the timer (write TACTL_DISABLE), set the compare threshold to
the calibrated startup latency INIT_LATENCY = 42, and re-enable the timer
with TACTL_ENABLE, whose mode-control field is 1 (up-counting) and whose
clock-source field is 2 (the system clock source named in the source
comment); it is a total function (no failure) changing nothing else. -/
theorem C6_init_sequence (s : MachineState) :
    (sancus_step_init s).2 =
      [SSEvent.dint, SSEvent.writeTACTL TACTL_DISABLE,
       SSEvent.writeTACCR0 INIT_LATENCY, SSEvent.writeTACTL TACTL_ENABLE]
    ∧ (sancus_step_init s).1 =
      { s with gie := false, TACCR0 := INIT_LATENCY, TACTL := TACTL_ENABLE }
    ∧ INIT_LATENCY = 42
    ∧ TACTL_ENABLE / 16 % 4 = 1
    ∧ TACTL_ENABLE / 256 % 4 = 2 :=
  ⟨rfl, rfl, rfl, by decide, by decide⟩

theorem isr_iter_inactive (fct : MachineState → MachineState) (n : Nat) :
    ∀ s : MachineState, s.r1 ≠ 0 →
    (sancus_step_isr_iter fct (n + 1) s).1 =
      { s with __ss_isr_tar_entry := s.TAR, TACTL := 0 }
    ∧ (sancus_step_isr_iter fct (n + 1) s).2.any isCall = false := by
  induction n with
  | zero =>
    intro s h
    rw [isr_iter_succ, isr_inactive_eq fct s h]
    exact ⟨rfl, rfl⟩
  | succ k ih =>
    intro s h
    obtain ⟨ih1, ih2⟩ :=
      ih { s with __ss_isr_tar_entry := s.TAR, TACTL := 0 } h
    have e0 : (sancus_step_isr fct s).1 =
        { s with __ss_isr_tar_entry := s.TAR, TACTL := 0 } :=
      (congrArg Prod.fst (isr_inactive_eq fct s h)).trans rfl
    have e1 : (sancus_step_isr fct s).2.any isCall = false := by
      rw [isr_inactive_eq fct s h]
      rfl
    rw [isr_iter_succ]
    constructor
    · rw [e0]
      exact ih1.trans rfl
    · rw [List.any_append, e0, e1, ih2]
      rfl

/-- Claim C5: over any run of handler invocations during which the protected
module stays inactive (r1 nonzero at entry, and hence at every later entry,
since the inactive path leaves r1 untouched), no invocation calls the step
callback and every invocation leaves the timer disabled (TACTL = 0); running
the inactive path twice leaves the timer state (TACTL and TACCR0) exactly as
running it once does, so the timer stays disabled while no stepping is in
progress. -/
theorem C5_inactive_idempotent (fct : MachineState → MachineState)
    (s : MachineState) (n : Nat) (h : s.r1 ≠ 0) :
    (sancus_step_isr_iter fct (n + 1) s).1.TACTL = 0
    ∧ (sancus_step_isr_iter fct (n + 1) s).2.any isCall = false
    ∧ (sancus_step_isr_iter fct 2 s).1.TACTL =
        (sancus_step_isr_iter fct 1 s).1.TACTL
    ∧ (sancus_step_isr_iter fct 2 s).1.TACCR0 =
        (sancus_step_isr_iter fct 1 s).1.TACCR0 := by
  obtain ⟨h1, h2⟩ := isr_iter_inactive fct n s h
  obtain ⟨g1, _⟩ := isr_iter_inactive fct 1 s h
  obtain ⟨f1, _⟩ := isr_iter_inactive fct 0 s h
  refine ⟨by rw [h1], h2, ?_, ?_⟩
  · show (sancus_step_isr_iter fct (1 + 1) s).1.TACTL =
      (sancus_step_isr_iter fct (0 + 1) s).1.TACTL
    rw [g1, f1]
  · show (sancus_step_isr_iter fct (1 + 1) s).1.TACCR0 =
      (sancus_step_isr_iter fct (0 + 1) s).1.TACCR0
    rw [g1, f1]

/-- Witness for C5: one and two inactive invocations evaluated at the
concrete module-inactive state wInactive. -/
theorem C5_inactive_idempotent_witness :
    wInactive.r1 ≠ 0
    ∧ ((sancus_step_isr_iter id (0 + 1) wInactive).1.TACTL = 0
      ∧ (sancus_step_isr_iter id (0 + 1) wInactive).2.any isCall = false
      ∧ (sancus_step_isr_iter id 2 wInactive).1.TACTL =
          (sancus_step_isr_iter id 1 wInactive).1.TACTL
      ∧ (sancus_step_isr_iter id 2 wInactive).1.TACCR0 =
          (sancus_step_isr_iter id 1 wInactive).1.TACCR0) :=
  ⟨by decide, C5_inactive_idempotent id wInactive 0 (by decide)⟩

/-- Claim C9: the handler never writes the saved interrupt-stack pointer
__ss_isr_sp (given the external callback leaves it unchanged, per the shared-
resource policy), so the stack switch of every module-active invocation
reloads r1 to the same fixed location; each active invocation pushes exactly
two words, the saved r15 and the placeholder 0, at the two addresses
determined by __ss_isr_sp alone, and inactive invocations push nothing, so
pushed words never accumulate across invocations. -/
theorem C9_fixed_interrupt_stack (fct : MachineState → MachineState)
    (hf : ∀ t, (fct t).__ss_isr_sp = t.__ss_isr_sp) (s : MachineState) :
    (sancus_step_isr fct s).1.__ss_isr_sp = s.__ss_isr_sp
    ∧ (s.r1 = 0 → pushTargets (sancus_step_isr fct s).2 =
        [(wordSub2 s.__ss_isr_sp, s.r15),
         (wordSub2 (wordSub2 s.__ss_isr_sp), 0)])
    ∧ (s.r1 ≠ 0 → pushTargets (sancus_step_isr fct s).2 = []) := by
  refine ⟨?_, fun h => ?_, fun h => ?_⟩
  · by_cases h : s.r1 = 0
    · rw [isr_active_state fct s h]
      exact (hf _).trans rfl
    · rw [isr_inactive_eq fct s h]
  · rw [isr_active_trace fct s h]
    rfl
  · rw [isr_inactive_eq fct s h]
    rfl

/-- Witness for C9: the identity callback preserves __ss_isr_sp, and the
conclusion evaluated at the concrete module-active state wActive. -/
theorem C9_fixed_interrupt_stack_witness :
    (sancus_step_isr id wActive).1.__ss_isr_sp = wActive.__ss_isr_sp
    ∧ (wActive.r1 = 0 → pushTargets (sancus_step_isr id wActive).2 =
        [(wordSub2 wActive.__ss_isr_sp, wActive.r15),
         (wordSub2 (wordSub2 wActive.__ss_isr_sp), 0)])
    ∧ (wActive.r1 ≠ 0 → pushTargets (sancus_step_isr id wActive).2 = []) :=
  C9_fixed_interrupt_stack id (fun _ => rfl) wActive

end SancusStep
